import Mathlib

/-! Verification of the sandbox client SDK (src/client/client.py): a shallow
embedding of the handle hierarchy (SandboxManager / Sandbox / ExecutionSession),
its request construction, and its response handling. -/

/-- A parsed JSON value, as produced by `resp.json()`; also used for the Python
values that can appear as dict keys/values in caller-supplied mappings. -/
inductive JValue where
  | null
  | bool (b : Bool)
  | str (s : String)
  | num (n : Int)
  | arr (xs : List JValue)
  | obj (fields : List (String × JValue))

/-- A Python dict with string keys, in insertion order (as Python preserves it). -/
abbrev Dict := List (String × JValue)

/-- Association-list lookup; models Python `d[k]` / `d.get(k)` / `k in d`. -/
def assocFind {α : Type} : List (String × α) → String → Option α
  | [], _ => none
  | (k, v) :: rest, key => if k = key then some v else assocFind rest key

/-- Python `d[key] = v`: replaces the value in place if `key` is present,
otherwise appends the new pair at the end (dict insertion order). -/
def Dict.setKey : Dict → String → JValue → Dict
  | [], key, v => [(key, v)]
  | (k, w) :: rest, key, v =>
    if k = key then (key, v) :: rest else (k, w) :: Dict.setKey rest key v

/-- The HTTP request finally handed to the transport by
`SandboxManager._request` (client.py lines 930-965): method, path, query
params, JSON body (each `none` when the Python argument is `None`), and the
sandbox id carried in the `x-sandbox-id` header. -/
structure Req where
  method : String
  path : String
  params : Option Dict
  body : Option Dict
  sandboxId : Option String

/-- A stubbed HTTP response: status code, parsed JSON body (`resp.json()`),
and raw text (`resp.text`). -/
structure HttpResp where
  status : Nat
  json : JValue
  text : String

/-- Python `requests.Response.ok`: true exactly when the status code is below 400. -/
def HttpResp.ok (r : HttpResp) : Bool := r.status < 400

/-- The exceptions the client code can raise: `SandboxError` (client.py lines
117-122, carrying message, optional status code, optional response text) and
the Python built-ins that argument validation and envelope handling can
produce. -/
inductive PyError where
  | sandboxError (message : String) (status : Option Nat) (responseText : Option String)
  | valueError (message : String)
  | attributeError (message : String)
  | typeError (message : String)
deriving DecidableEq

/-- Python `str(e)`: the message an exception with one positional argument prints. -/
def PyError.message : PyError → String
  | .sandboxError m _ _ => m
  | .valueError m => m
  | .attributeError m => m
  | .typeError m => m

/-- A stub transport: maps each issued request to a response
(`requests.Session.request` in `SandboxManager._request`). -/
abbrev Transport := Req → HttpResp

/-- Embeds `ExecutionSession._request` (client.py lines 137-187), at the level of
dict values: copies the caller dicts, injects the session id into the JSON
body for POST/PUT and into the query params for GET/DELETE, and forwards
through `Sandbox._request` / `SandboxManager._request` (which attach the
sandbox id header); empty dicts are passed as `None`. -/
def ExecutionSession.request (sessionId : String) (method path : String)
    (params jsonBody : Option Dict) (sandboxId : String) : Req :=
  let finalJsonBody := match jsonBody with
    | some d => d
    | none => []
  let finalParams := match params with
    | some d => d
    | none => []
  let (finalParams, finalJsonBody) :=
    if method = "POST" ∨ method = "PUT" then
      (finalParams, Dict.setKey finalJsonBody "sessionId" (JValue.str sessionId))
    else if method = "GET" ∨ method = "DELETE" then
      (Dict.setKey finalParams "sessionId" (JValue.str sessionId), finalJsonBody)
    else (finalParams, finalJsonBody)
  { method := method, path := path,
    params := if finalParams.isEmpty then none else some finalParams,
    body := if finalJsonBody.isEmpty then none else some finalJsonBody,
    sandboxId := some sandboxId }

/-- The `ExecutionSession` operations (client.py lines 189-520), abstracted by
their payloads. Each constructor records the data the corresponding Python
method passes to `self._request`. `runScript` is not listed separately: it
only issues requests through `write` and `run`. -/
inductive SessionOp where
  | write (path content : String)
  | read (path : String)
  | download (path : String)
  | deleteFile (path : String)
  | mountBucket (bucket mountPath : String) (options : JValue)
  | mkdir (path : String) (recursive : Bool)
  | existsFile (path : String)
  | rename (oldPath newPath : String)
  | move (sourcePath destPath : String)
  | unmountBucket (mountPath : String)
  | run (command : String)
  | setEnvVars (envVars : Dict)

/-- The HTTP method each operation uses (the first argument of its
`self._request` call). -/
def SessionOp.method : SessionOp → String
  | .write _ _ => "POST"
  | .read _ => "GET"
  | .download _ => "GET"
  | .deleteFile _ => "DELETE"
  | .mountBucket _ _ _ => "POST"
  | .mkdir _ _ => "POST"
  | .existsFile _ => "GET"
  | .rename _ _ => "POST"
  | .move _ _ => "POST"
  | .unmountBucket _ => "DELETE"
  | .run _ => "POST"
  | .setEnvVars _ => "POST"

/-- The endpoint path each operation uses. -/
def SessionOp.path : SessionOp → String
  | .write _ _ => "/files/write"
  | .read _ => "/files/read"
  | .download _ => "/files/read"
  | .deleteFile _ => "/files/delete"
  | .mountBucket _ _ _ => "/mount-bucket"
  | .mkdir _ _ => "/files/mkdir"
  | .existsFile _ => "/files/exists"
  | .rename _ _ => "/files/rename"
  | .move _ _ => "/files/move"
  | .unmountBucket _ => "/unmount-bucket"
  | .run _ => "/session/exec"
  | .setEnvVars _ => "/session/env"

/-- The `params` dict each operation passes to `self._request`
(`none` when the Python call leaves `params=None`). -/
def SessionOp.opParams : SessionOp → Option Dict
  | .write _ _ => none
  | .read p => some [("path", JValue.str p)]
  | .download p => some [("path", JValue.str p), ("encoding", JValue.str "base64")]
  | .deleteFile p => some [("path", JValue.str p)]
  | .mountBucket _ _ _ => none
  | .mkdir _ _ => none
  | .existsFile p => some [("path", JValue.str p)]
  | .rename _ _ => none
  | .move _ _ => none
  | .unmountBucket mp => some [("mountPath", JValue.str mp)]
  | .run _ => none
  | .setEnvVars _ => none

/-- The `json_body` dict each operation passes to `self._request`
(`none` when the Python call leaves `json_body=None`). -/
def SessionOp.opBody : SessionOp → Option Dict
  | .write p c => some [("path", JValue.str p), ("content", JValue.str c)]
  | .read _ => none
  | .download _ => none
  | .deleteFile _ => none
  | .mountBucket b mp opts =>
      some [("bucket", JValue.str b), ("mountPath", JValue.str mp), ("options", opts)]
  | .mkdir p r => some [("path", JValue.str p), ("recursive", JValue.bool r)]
  | .existsFile _ => none
  | .rename o n => some [("oldPath", JValue.str o), ("newPath", JValue.str n)]
  | .move s d => some [("sourcePath", JValue.str s), ("destPath", JValue.str d)]
  | .unmountBucket _ => none
  | .run c => some [("command", JValue.str c)]
  | .setEnvVars env => some [("envVars", JValue.obj env)]

/-- The request a session operation issues, via `ExecutionSession._request`. -/
def SessionOp.issue (op : SessionOp) (sessionId sandboxId : String) : Req :=
  ExecutionSession.request sessionId op.method op.path op.opParams op.opBody sandboxId

/-- The issued request carries the session id in its JSON body. -/
def Req.sessionIdInBody (r : Req) (sid : String) : Prop :=
  ∃ d, r.body = some d ∧ assocFind d "sessionId" = some (JValue.str sid)

/-- The issued request carries the session id in its query parameters. -/
def Req.sessionIdInParams (r : Req) (sid : String) : Prop :=
  ∃ d, r.params = some d ∧ assocFind d "sessionId" = some (JValue.str sid)

/-- Python truthiness of a JSON value (`bool(x)`). -/
def pyTruthy : JValue → Bool
  | .null => false
  | .bool b => b
  | .str s => !s.isEmpty
  | .num n => n != 0
  | .arr xs => !xs.isEmpty
  | .obj fs => !fs.isEmpty

/-- Python `v.get(key, default)`: succeeds when `v` is a dict, raises
`AttributeError` otherwise. -/
def pyDictGet (v : JValue) (key : String) (default : JValue) : Except PyError JValue :=
  match v with
  | .obj fs => .ok ((assocFind fs key).getD default)
  | _ => .error (.attributeError "get")

/-- Embeds `ExecutionSession.write` (client.py lines 189-202): POST `/files/write`
with path and content; raises `SandboxError` carrying the status code on a
non-success response. Returns the outcome and the list of issued requests. -/
def ExecutionSession.write (tr : Transport) (sandboxId sessionId path content : String) :
    Except PyError Unit × List Req :=
  let req := ExecutionSession.request sessionId "POST" "/files/write"
    none (some [("path", JValue.str path), ("content", JValue.str content)]) sandboxId
  let resp := tr req
  if resp.ok then (.ok (), [req])
  else
    (.error (.sandboxError
      ("Failed to write file \x27" ++ path ++ "\x27 in session \x27" ++ sessionId ++ "\x27")
      (some resp.status) (some resp.text)), [req])

/-- Embeds `ExecutionSession.read` (client.py lines 204-222): GET `/files/read`;
unwraps the `{data: {content: ...}}` envelope, defaulting the content to the
empty string, and falls back to the raw body / text for other shapes. -/
def ExecutionSession.read (tr : Transport) (sandboxId sessionId path : String) :
    Except PyError JValue × List Req :=
  let req := ExecutionSession.request sessionId "GET" "/files/read"
    (some [("path", JValue.str path)]) none sandboxId
  let resp := tr req
  if resp.ok then
    (match resp.json with
     | .obj fields =>
        match assocFind fields "data" with
        | some dv => pyDictGet dv "content" (JValue.str "")
        | none => .ok ((assocFind fields "content").getD (JValue.str ""))
     | _ => .ok (.str resp.text), [req])
  else
    (.error (.sandboxError
      ("Failed to read file \x27" ++ path ++ "\x27 in session \x27" ++ sessionId ++ "\x27")
      (some resp.status) (some resp.text)), [req])

/-- Embeds `ExecutionSession.exists` (client.py lines 304-322): GET `/files/exists`;
truthiness of the `exists` field of the unwrapped envelope, defaulting to
`False` when the field is absent. -/
def ExecutionSession.existsFile (tr : Transport) (sandboxId sessionId path : String) :
    Except PyError Bool × List Req :=
  let req := ExecutionSession.request sessionId "GET" "/files/exists"
    (some [("path", JValue.str path)]) none sandboxId
  let resp := tr req
  if resp.ok then
    (match resp.json with
     | .obj fields =>
        match assocFind fields "data" with
        | some dv => (pyDictGet dv "exists" (JValue.bool false)).map pyTruthy
        | none => .ok (pyTruthy ((assocFind fields "exists").getD (JValue.bool false)))
     | _ => .error (.attributeError "get"), [req])
  else
    (.error (.sandboxError
      ("Failed to check existence for \x27" ++ path ++ "\x27 in session \x27" ++ sessionId ++ "\x27")
      (some resp.status) (some resp.text)), [req])

/-- Embeds `ExecutionSession.run` (client.py lines 381-400): POST `/session/exec`;
returns the nested result object of the unwrapped envelope. -/
def ExecutionSession.run (tr : Transport) (sandboxId sessionId command : String) :
    Except PyError JValue × List Req :=
  let req := ExecutionSession.request sessionId "POST" "/session/exec"
    none (some [("command", JValue.str command)]) sandboxId
  let resp := tr req
  if resp.ok then
    (match resp.json with
     | .obj fields =>
        match assocFind fields "data" with
        | some dv => pyDictGet dv "result" dv
        | none => .ok ((assocFind fields "result").getD (JValue.obj fields))
     | _ => .error (.attributeError "get"), [req])
  else
    (.error (.sandboxError
      ("Failed to run command \x27" ++ command ++ "\x27 in session \x27" ++ sessionId ++ "\x27")
      (some resp.status) (some resp.text)), [req])

/-- Python `isinstance(x, str)` for a value. -/
def JValue.isStr : JValue → Bool
  | .str _ => true
  | _ => false

/-- The string payload of a Python value known to be a string. -/
def JValue.strVal : JValue → String
  | .str s => s
  | _ => ""

/-- The POST `/session/env` request `set_env_vars` issues (line 509),
session-id injected through `ExecutionSession._request`. -/
def sessionEnvReq (sandboxId sessionId : String) (payload : Dict) : Req :=
  ExecutionSession.request sessionId "POST" "/session/env"
    none (some [("envVars", JValue.obj payload)]) sandboxId

/-- Embeds `ExecutionSession.set_env_vars` (client.py lines 484-520): every key and
value of `env_vars` must be a string, otherwise a built-in `ValueError` is
raised before any request; then POST `/session/env` with the `envVars`
payload. The caller's mapping is modeled as a list of (key, value) Python
values so that non-string entries are representable. -/
def ExecutionSession.set_env_vars (tr : Transport) (sandboxId sessionId : String)
    (envVars : List (JValue × JValue)) : Except PyError Unit × List Req :=
  match envVars.find? (fun kv => !(kv.1.isStr && kv.2.isStr)) with
  | some _ =>
      (.error (.valueError "env_vars must contain only string key-value pairs"), [])
  | none =>
      let payload : Dict := envVars.map (fun kv => (kv.1.strVal, JValue.str kv.2.strVal))
      let req := sessionEnvReq sandboxId sessionId payload
      let resp := tr req
      if resp.ok then (.ok (), [req])
      else
        (.error (.sandboxError
          ("Failed to set environment variables for session \x27" ++ sessionId ++ "\x27")
          (some resp.status) (some resp.text)), [req])

/-- Embeds `Sandbox.set_env_vars` (client.py lines 863-880): delegates to the lazily
created default session. -/
def Sandbox.set_env_vars (tr : Transport) (sandboxId : String)
    (envVars : List (JValue × JValue)) : Except PyError Unit × List Req :=
  ExecutionSession.set_env_vars tr sandboxId "default" envVars

/-- Embeds `Sandbox.delete_session` (client.py lines 759-795): refuses to delete the
`"default"` session locally; otherwise DELETE `/session` through
`Sandbox._request` (no session-id injection), with `session_id` as a query
parameter, unwrapping the envelope of a success response. -/
def Sandbox.delete_session (tr : Transport) (sandboxId sessionId : String) :
    Except PyError JValue × List Req :=
  if sessionId = "default" then
    (.error (.sandboxError
      "Cannot delete default session. Use destroy() to terminate the sandbox."
      none none), [])
  else
    let req : Req :=
      { method := "DELETE", path := "/session",
        params := some [("session_id", JValue.str sessionId)], body := none,
        sandboxId := some sandboxId }
    let resp := tr req
    if resp.ok then
      (match resp.json with
       | .obj fields =>
          match assocFind fields "data" with
          | some dv => .ok dv
          | none => .ok (.obj fields)
       | other => .ok other, [req])
    else
      (.error (.sandboxError
        ("Failed to delete session \x27" ++ sessionId ++ "\x27")
        (some resp.status) (some resp.text)), [req])

/-- The local state of a `SandboxManager` (client.py lines 883-913): the
`_sandboxes` cache maps a sandbox id to its cached `Sandbox` handle. Handles
are modeled as allocation numbers so that object identity is expressible:
two lookups return the identical in-process handle exactly when they return
the same number. `nextHandle` is the next fresh allocation. -/
structure ManagerState where
  sandboxes : List (String × Nat)
  nextHandle : Nat
deriving DecidableEq

/-- Embeds `SandboxManager._append_id` (client.py lines 915-919): constructs and
caches a `Sandbox` handle for the id if absent, then returns the cached
handle. -/
def ManagerState.appendId (st : ManagerState) (sandboxId : String) : ManagerState × Nat :=
  match assocFind st.sandboxes sandboxId with
  | some h => (st, h)
  | none =>
      ({ sandboxes := st.sandboxes ++ [(sandboxId, st.nextHandle)],
         nextHandle := st.nextHandle + 1 }, st.nextHandle)

/-- Embeds `SandboxManager._remove_id` (client.py lines 921-923): `dict.pop` of the
id, dropping its cache entry (a no-op when the id is not cached). -/
def ManagerState.removeId (st : ManagerState) (sandboxId : String) : ManagerState :=
  { st with sandboxes := removeKey st.sandboxes sandboxId }
where
  removeKey : List (String × Nat) → String → List (String × Nat)
    | [], _ => []
    | (k, v) :: rest, id => if k = id then removeKey rest id else (k, v) :: removeKey rest id

/-- The POST `/lifecycle` request `create_or_get_sandbox` issues (line 1045). -/
def lifecycleCreateReq (sandboxId : String) (options : JValue) : Req :=
  { method := "POST", path := "/lifecycle", params := none,
    body := some [("options", options)], sandboxId := some sandboxId }

/-- Embeds `SandboxManager.create_or_get_sandbox` (client.py lines 1024-1057): always
issues POST `/lifecycle` scoped to the sandbox id (the local cache short-cut
is commented out in the code); raises `SandboxError` on non-success, and on
success caches (if absent) and returns the handle. -/
def SandboxManager.create_or_get_sandbox (tr : Transport) (st : ManagerState)
    (sandboxId : String) (options : JValue) :
    ManagerState × Except PyError Nat × List Req :=
  let req : Req := lifecycleCreateReq sandboxId options
  let resp := tr req
  if resp.ok then
    let (st2, h) := st.appendId sandboxId
    (st2, .ok h, [req])
  else
    (st, .error (.sandboxError
      ("Failed to create sandbox \x27" ++ sandboxId ++ "\x27")
      (some resp.status) (some resp.text)), [req])

/-- The DELETE `/lifecycle` request `destroy_sandbox` issues (line 1073). -/
def lifecycleDestroyReq (sandboxId : String) : Req :=
  { method := "DELETE", path := "/lifecycle", params := none,
    body := none, sandboxId := some sandboxId }

/-- Embeds `SandboxManager.destroy_sandbox` (client.py lines 1059-1085): issues
DELETE `/lifecycle` scoped to the sandbox id regardless of the local cache
(the cache check is commented out); raises `SandboxError` carrying the status
on non-success, leaving the state untouched; drops the cache entry on
success. -/
def SandboxManager.destroy_sandbox (tr : Transport) (st : ManagerState)
    (sandboxId : String) : ManagerState × Except PyError Unit × List Req :=
  let req : Req := lifecycleDestroyReq sandboxId
  let resp := tr req
  if resp.ok then (st.removeId sandboxId, .ok (), [req])
  else
    (st, .error (.sandboxError
      ("Failed to destroy sandbox \x27" ++ sandboxId ++ "\x27")
      (some resp.status) (some resp.text)), [req])

/-- The summary dict returned by `SandboxManager.destroy_all_sandboxes`. -/
structure DestroyAllResult where
  destroyed : List String
  failed : List (String × String)
  total : Nat
  success_count : Nat
  failure_count : Nat
deriving DecidableEq

/-- The loop body of `SandboxManager.destroy_all_sandboxes` (client.py lines
1106-1119): destroys each id in turn, recording successes and
(id, str(error)) failures; aborts on the first failure unless
`continue_on_error` is set. -/
def destroyAllLoop (tr : Transport) (continueOnError : Bool) :
    List String → ManagerState → List String → List (String × String) → List Req →
    ManagerState × Except PyError (List String × List (String × String)) × List Req
  | [], st, destroyed, failed, tra => (st, .ok (destroyed, failed), tra)
  | id :: rest, st, destroyed, failed, tra =>
      match SandboxManager.destroy_sandbox tr st id with
      | (st2, .ok _, tra2) =>
          destroyAllLoop tr continueOnError rest st2 (destroyed ++ [id]) failed (tra ++ tra2)
      | (st2, .error e, tra2) =>
          let failed2 := failed ++ [(id, e.message)]
          if continueOnError then
            destroyAllLoop tr continueOnError rest st2 destroyed failed2 (tra ++ tra2)
          else (st2, .error e, tra ++ tra2)

/-- Embeds `SandboxManager.destroy_all_sandboxes` (client.py lines 1087-1127):
iterates the locally cached sandbox ids and destroys each; returns the
summary with destroyed ids, (id, error-message) failures and counts. -/
def SandboxManager.destroy_all_sandboxes (tr : Transport) (st : ManagerState)
    (continueOnError : Bool) :
    ManagerState × Except PyError DestroyAllResult × List Req :=
  let sandboxIds := st.sandboxes.map (fun p => p.1)
  match destroyAllLoop tr continueOnError sandboxIds st [] [] [] with
  | (st2, .ok (destroyed, failed), tra) =>
      (st2, .ok { destroyed := destroyed, failed := failed,
                  total := sandboxIds.length,
                  success_count := destroyed.length,
                  failure_count := failed.length }, tra)
  | (st2, .error e, tra) => (st2, .error e, tra)

/-- Python `os.path.basename`, character by character: everything after the last
slash (the whole string when it has no slash). -/
def basenameAux : List Char → List Char → List Char
  | [], acc => acc
  | c :: rest, acc => basenameAux rest (if c = '/' then [] else acc ++ [c])

/-- Python `os.path.basename(p)`. -/
def basename (p : String) : String := ⟨basenameAux p.data []⟩

/-- The per-interpreter default extension map of `ExecutionSession.run_script`
(client.py lines 437-445 and 449-457, two identical literals). -/
def extMap (interpreter : String) : String :=
  (assocFind
    [("python3", ".py"), ("python", ".py"), ("bash", ".sh"),
     ("sh", ".sh"), ("node", ".js"), ("nodejs", ".js")] interpreter).getD ".txt"

/-- The invocation command `ExecutionSession.run_script` builds (client.py
lines 463-471). -/
def scriptCommand (interpreter sandboxPath : String) : String :=
  if interpreter = "python3" ∨ interpreter = "python" then "python3 " ++ sandboxPath
  else if interpreter = "bash" ∨ interpreter = "sh" then "bash " ++ sandboxPath
  else if interpreter = "node" ∨ interpreter = "nodejs" then "node " ++ sandboxPath
  else interpreter ++ " " ++ sandboxPath

/-- Embeds `ExecutionSession.run_script` (client.py lines 402-482). The local
filesystem is abstracted as `localFs`, mapping a path to its content exactly
when `os.path.isfile` holds and the file is readable; `freshUuid` stands for
the `uuid.uuid4()` draw used for generated script names. Resolves the script
content and the sandbox path, uploads via `write`, runs the interpreter
command via `run`, and merges the metadata fields into the result dict. -/
def ExecutionSession.run_script (tr : Transport) (localFs : String → Option String)
    (freshUuid : String) (sandboxId sessionId : String)
    (scriptPathOrContent : String) (interpreter : String)
    (sandboxPath : Option String) : Except PyError JValue × List Req :=
  let scriptContent := match localFs scriptPathOrContent with
    | some content => content
    | none => scriptPathOrContent
  -- `if not sandbox_path:` — triggers for None and for the empty string
  let sbPath :=
    if (match sandboxPath with | some p => p.isEmpty | none => true) then
      match localFs scriptPathOrContent with
      | some _ =>
          let localFilename := basename scriptPathOrContent
          let localFilename :=
            if localFilename.data.isEmpty || !(localFilename.data.contains '.') then
              "script" ++ extMap interpreter
            else localFilename
          "/workspace/" ++ localFilename
      | none => "/workspace/script-" ++ freshUuid ++ extMap interpreter
    else (sandboxPath.getD "")
  match ExecutionSession.write tr sandboxId sessionId sbPath scriptContent with
  | (.error e, tra1) => (.error e, tra1)
  | (.ok _, tra1) =>
      let command := scriptCommand interpreter sbPath
      match ExecutionSession.run tr sandboxId sessionId command with
      | (.error e, tra2) => (.error e, tra1 ++ tra2)
      | (.ok result, tra2) =>
          match result with
          | .obj fs =>
              let fs := Dict.setKey fs "scriptPath" (JValue.str sbPath)
              let fs := Dict.setKey fs "interpreter" (JValue.str interpreter)
              let fs := Dict.setKey fs "localPath"
                (match localFs scriptPathOrContent with
                 | some _ => JValue.str scriptPathOrContent
                 | none => JValue.null)
              let fs := Dict.setKey fs "sessionId" (JValue.str sessionId)
              (.ok (.obj fs), tra1 ++ tra2)
          | _ => (.error (.typeError "item assignment"), tra1 ++ tra2)

/-- A heap of Python dict objects: dict values indexed by their object
identity (allocation order). Fresh dicts are appended; `d[k] = v` mutates
in place. This object-level model makes aliasing observable, which the
value-level `ExecutionSession.request` cannot. -/
structure Store where
  dicts : List Dict

/-- Dereference a dict object. -/
def Store.get (s : Store) (r : Nat) : Dict := s.dicts.getD r []

/-- Allocate a fresh dict object holding `d`. -/
def Store.alloc (s : Store) (d : Dict) : Store × Nat :=
  (⟨s.dicts ++ [d]⟩, s.dicts.length)

/-- Python `d[k] = v` on the dict object `r`, in place. -/
def Store.setItem (s : Store) (r : Nat) (k : String) (v : JValue) : Store :=
  ⟨s.dicts.set r (Dict.setKey (s.get r) k v)⟩

/-- Object-level embedding of `ExecutionSession._request` (client.py lines
147-156 and 170-176): `final_json_body = dict(json_body) if json_body else
{}` and `final_params = dict(params) if params else {}` each allocate a fresh
dict (a copy of the truthy caller dict, else an empty one); the session id is
then written into the fresh body dict for POST/PUT and into the fresh params
dict for GET/DELETE; each fresh dict is forwarded when non-empty, `None`
otherwise. Returns the heap after the call together with the forwarded
(params, body) references. -/
def ExecutionSession.requestStore (sessionId method : String)
    (params jsonBody : Option Nat) (s0 : Store) :
    Store × Option Nat × Option Nat :=
  let (s1, bRef) := match jsonBody with
    | some r => if !(s0.get r).isEmpty then s0.alloc (s0.get r) else s0.alloc []
    | none => s0.alloc []
  let (s2, pRef) := match params with
    | some r => if !(s1.get r).isEmpty then s1.alloc (s1.get r) else s1.alloc []
    | none => s1.alloc []
  let s3 :=
    if method = "POST" ∨ method = "PUT" then s2.setItem bRef "sessionId" (JValue.str sessionId)
    else if method = "GET" ∨ method = "DELETE" then s2.setItem pRef "sessionId" (JValue.str sessionId)
    else s2
  (s3,
   (if (s3.get pRef).isEmpty then none else some pRef),
   (if (s3.get bRef).isEmpty then none else some bRef))

/-- A stub local filesystem for concrete checks: exactly one readable file,
`/tmp/demo.sh`. -/
def localFsStub : String → Option String :=
  fun q => if q = "/tmp/demo.sh" then some "echo hi" else none

/-- A stub transport that always answers status 200 with an empty JSON
object. -/
def trOk : Transport := fun _ => { status := 200, json := .obj [], text := "" }

/-- A stub transport that always answers status 200 with the given JSON. -/
def trJson (v : JValue) : Transport :=
  fun _ => { status := 200, json := v, text := "" }

/-- A stub transport that fails (status 500) exactly the requests whose
sandbox id header is `badId`, and answers 200 otherwise. -/
def trFailFor (badId : String) : Transport :=
  fun r => if r.sandboxId = some badId
    then { status := 500, json := .obj [], text := "boom" }
    else { status := 200, json := .obj [], text := "" }

/-- C1: every `ExecutionSession` operation issues its request with the
session id in exactly one place — merged into the JSON body under
`"sessionId"` when the method is POST or PUT, and merged into the query
parameters under the same key when the method is GET or DELETE — never in
both places and never in neither. -/
theorem sessionOp_sessionId_exactly_one_place (sid sandboxId : String) (op : SessionOp) :
    ((op.method = "POST" ∨ op.method = "PUT") ∧
      (op.issue sid sandboxId).sessionIdInBody sid ∧
      ¬ (op.issue sid sandboxId).sessionIdInParams sid) ∨
    ((op.method = "GET" ∨ op.method = "DELETE") ∧
      (op.issue sid sandboxId).sessionIdInParams sid ∧
      ¬ (op.issue sid sandboxId).sessionIdInBody sid) := by
  cases op <;>
    simp [SessionOp.issue, SessionOp.method, SessionOp.path, SessionOp.opParams,
      SessionOp.opBody, ExecutionSession.request, Dict.setKey, assocFind,
      Req.sessionIdInBody, Req.sessionIdInParams]

/-- Looking up a key that a list does not contain, after appending a pair
with that key, finds the appended value. -/
theorem assocFind_append_none {α : Type} (l : List (String × α)) (id : String) (v : α)
    (h : assocFind l id = none) : assocFind (l ++ [(id, v)]) id = some v := by
  induction l with
  | nil => simp [assocFind]
  | cons p rest ih =>
      obtain ⟨k, w⟩ := p
      by_cases hk : k = id
      · simp [assocFind, hk] at h
      · simp [assocFind, hk] at h ⊢
        exact ih h

/-- After `_append_id`, the cache maps the id to the returned handle. -/
theorem assocFind_appendId (st : ManagerState) (id : String) :
    assocFind ((st.appendId id).1).sandboxes id = some ((st.appendId id).2) := by
  unfold ManagerState.appendId
  cases hfind : assocFind st.sandboxes id with
  | some h => simp [hfind]
  | none => simp [hfind, assocFind_append_none st.sandboxes id st.nextHandle hfind]

/-- A successful `create_or_get_sandbox` returns exactly the state and handle
produced by `_append_id`. -/
theorem createOrGet_ok_elim (tr : Transport) (st st' : ManagerState) (id : String)
    (opts : JValue) (h : Nat) (tra : List Req)
    (e : SandboxManager.create_or_get_sandbox tr st id opts = (st', .ok h, tra)) :
    st' = (st.appendId id).1 ∧ h = (st.appendId id).2 := by
  unfold SandboxManager.create_or_get_sandbox at e
  cases hok : (tr (lifecycleCreateReq id opts)).ok with
  | true =>
      simp [hok] at e
      obtain ⟨e1, e2, -⟩ := e
      exact ⟨e1.symm, e2.symm⟩
  | false => simp [hok] at e

/-- Applying `_append_id` on a cached id returns the cached handle, unchanged state. -/
theorem appendId_of_found (st : ManagerState) (id : String) (h : Nat)
    (hfind : assocFind st.sandboxes id = some h) : st.appendId id = (st, h) := by
  unfold ManagerState.appendId
  simp [hfind]

/-- C3: if `create_or_get_sandbox` succeeds twice for the same sandbox id on
the same manager, with no intervening destroy, both calls return the
identical in-process handle (the same allocation, i.e. object identity, not
merely structural equality). -/
theorem createOrGet_twice_same_handle (tr : Transport) (st st1 st2 : ManagerState)
    (id : String) (opts : JValue) (h1 h2 : Nat) (tra1 tra2 : List Req)
    (e1 : SandboxManager.create_or_get_sandbox tr st id opts = (st1, .ok h1, tra1))
    (e2 : SandboxManager.create_or_get_sandbox tr st1 id opts = (st2, .ok h2, tra2)) :
    h1 = h2 := by
  obtain ⟨hst1, hh1⟩ := createOrGet_ok_elim tr st st1 id opts h1 tra1 e1
  obtain ⟨hst2, hh2⟩ := createOrGet_ok_elim tr st1 st2 id opts h2 tra2 e2
  have hf : assocFind st1.sandboxes id = some h1 := by
    rw [hst1, hh1]; exact assocFind_appendId st id
  rw [hh2, appendId_of_found st1 id h1 hf]

/-- Witness for C3: a concrete manager with an empty cache, a stub transport
that always succeeds, and two successive create-or-get calls for `"sb"`,
both returning handle 0. -/
theorem createOrGet_twice_same_handle_witness : (0 : Nat) = 0 :=
  createOrGet_twice_same_handle trOk
    { sandboxes := [], nextHandle := 0 }
    { sandboxes := [("sb", 0)], nextHandle := 1 }
    { sandboxes := [("sb", 0)], nextHandle := 1 }
    "sb" JValue.null 0 0
    [lifecycleCreateReq "sb" JValue.null] [lifecycleCreateReq "sb" JValue.null]
    rfl rfl

/-- C2: deleting the session `"default"` always fails with a locally raised
`SandboxError` (no status code, i.e. no remote rejection) and issues zero
requests through the transport, for every transport and sandbox id. -/
theorem deleteSession_default_fails_locally (tr : Transport) (sandboxId : String) :
    Sandbox.delete_session tr sandboxId "default" =
      (.error (.sandboxError
        "Cannot delete default session. Use destroy() to terminate the sandbox."
        none none), []) := rfl

/-- Removing a key from the cache makes lookups of that key fail. -/
theorem removeKey_self (l : List (String × Nat)) (id : String) :
    assocFind (ManagerState.removeId.removeKey l id) id = none := by
  induction l with
  | nil => simp [ManagerState.removeId.removeKey, assocFind]
  | cons p rest ih =>
      obtain ⟨k, v⟩ := p
      by_cases hk : k = id
      · simp [ManagerState.removeId.removeKey, hk, ih]
      · simp [ManagerState.removeId.removeKey, assocFind, hk, ih]

/-- Removing a key from the cache leaves every other key's entry intact. -/
theorem removeKey_other (l : List (String × Nat)) (id other : String) (hne : other ≠ id) :
    assocFind (ManagerState.removeId.removeKey l id) other = assocFind l other := by
  induction l with
  | nil => simp [ManagerState.removeId.removeKey]
  | cons p rest ih =>
      obtain ⟨k, v⟩ := p
      by_cases hk : k = id
      · subst hk
        simp [ManagerState.removeId.removeKey, assocFind, Ne.symm hne, ih]
      · simp [ManagerState.removeId.removeKey, assocFind, hk, ih]

/-- C4: `destroy_sandbox` issues the remote lifecycle-destroy request
unconditionally (cached or not); when the response is success-class it
returns ok and evicts exactly that id from the cache (all other entries
preserved); when it is not, it fails with a `SandboxError` carrying the
status code and leaves the cache completely unchanged. -/
theorem destroySandbox_evicts_iff_success (tr : Transport) (st : ManagerState) (id : String) :
    (SandboxManager.destroy_sandbox tr st id).2.2 = [lifecycleDestroyReq id] ∧
    ((tr (lifecycleDestroyReq id)).ok = true →
      (SandboxManager.destroy_sandbox tr st id).2.1 = .ok () ∧
      (SandboxManager.destroy_sandbox tr st id).1 = st.removeId id ∧
      assocFind ((SandboxManager.destroy_sandbox tr st id).1).sandboxes id = none ∧
      ∀ other, other ≠ id →
        assocFind ((SandboxManager.destroy_sandbox tr st id).1).sandboxes other
          = assocFind st.sandboxes other) ∧
    ((tr (lifecycleDestroyReq id)).ok = false →
      (SandboxManager.destroy_sandbox tr st id).1 = st ∧
      (SandboxManager.destroy_sandbox tr st id).2.1 =
        .error (.sandboxError ("Failed to destroy sandbox \x27" ++ id ++ "\x27")
          (some (tr (lifecycleDestroyReq id)).status)
          (some (tr (lifecycleDestroyReq id)).text))) := by
  refine ⟨?_, ?_, ?_⟩
  · unfold SandboxManager.destroy_sandbox
    by_cases hok : (tr (lifecycleDestroyReq id)).ok <;> simp [hok]
  · intro hok
    unfold SandboxManager.destroy_sandbox
    simp [hok, ManagerState.removeId, removeKey_self, removeKey_other]
    intro other hne
    exact removeKey_other st.sandboxes id other hne
  · intro hok
    unfold SandboxManager.destroy_sandbox
    simp [hok]

/-- Witness for C4: on a manager caching `"a"`, a succeeding destroy empties
the cache, and a failing destroy leaves it untouched. -/
theorem destroySandbox_evicts_iff_success_witness :
    (SandboxManager.destroy_sandbox trOk { sandboxes := [("a", 0)], nextHandle := 1 } "a").1
      = { sandboxes := [], nextHandle := 1 } ∧
    (SandboxManager.destroy_sandbox (trFailFor "a")
        { sandboxes := [("a", 0)], nextHandle := 1 } "a").1
      = { sandboxes := [("a", 0)], nextHandle := 1 } := by
  constructor
  · have h := (destroySandbox_evicts_iff_success trOk
      { sandboxes := [("a", 0)], nextHandle := 1 } "a").2.1 rfl
    rw [h.2.1]; rfl
  · have h := (destroySandbox_evicts_iff_success (trFailFor "a")
      { sandboxes := [("a", 0)], nextHandle := 1 } "a").2.2 rfl
    exact h.1

/-- C6: `destroy_all_sandboxes` with `continue_on_error = True` over three
cached ids whose middle destroy fails remotely still attempts (and succeeds
on) the third: the transport sees all three lifecycle-destroy requests in
order, and the summary reports `total = 3`, `success_count = 2`,
`failure_count = 1`, listing the destroyed ids and the (id, error-message)
failure. -/
theorem destroyAll_continueOnError_attempts_all (tr : Transport) (a b c : String)
    (na nb nc nh : Nat)
    (hba : b ≠ a) (hca : c ≠ a) (hbc : b ≠ c)
    (hA : (tr (lifecycleDestroyReq a)).ok = true)
    (hB : (tr (lifecycleDestroyReq b)).ok = false)
    (hC : (tr (lifecycleDestroyReq c)).ok = true) :
    SandboxManager.destroy_all_sandboxes tr
        { sandboxes := [(a, na), (b, nb), (c, nc)], nextHandle := nh } true =
      ({ sandboxes := [(b, nb)], nextHandle := nh },
       .ok { destroyed := [a, c],
             failed := [(b, "Failed to destroy sandbox \x27" ++ b ++ "\x27")],
             total := 3, success_count := 2, failure_count := 1 },
       [lifecycleDestroyReq a, lifecycleDestroyReq b, lifecycleDestroyReq c]) := by
  simp [SandboxManager.destroy_all_sandboxes, destroyAllLoop,
    SandboxManager.destroy_sandbox, hA, hB, hC, ManagerState.removeId,
    ManagerState.removeId.removeKey, hba, hca, hbc, PyError.message]

/-- Witness for C6: ids `"a"`, `"b"`, `"c"` against a stub transport failing
exactly `"b"`. -/
theorem destroyAll_continueOnError_attempts_all_witness :
    SandboxManager.destroy_all_sandboxes (trFailFor "b")
        { sandboxes := [("a", 0), ("b", 1), ("c", 2)], nextHandle := 3 } true =
      ({ sandboxes := [("b", 1)], nextHandle := 3 },
       .ok { destroyed := ["a", "c"],
             failed := [("b", "Failed to destroy sandbox \x27b\x27")],
             total := 3, success_count := 2, failure_count := 1 },
       [lifecycleDestroyReq "a", lifecycleDestroyReq "b", lifecycleDestroyReq "c"]) :=
  destroyAll_continueOnError_attempts_all (trFailFor "b") "a" "b" "c" 0 1 2 3
    (by decide) (by decide) (by decide) rfl rfl rfl

/-- C5 counterexample: for the mapping with the non-string key `1`,
`set_env_vars` raises the Python built-in `ValueError` — not the SDK's single
error kind `SandboxError` as the claim states (the second conjunct shows the
raised error is not a `SandboxError` of any message/status/body). -/
theorem setEnvVars_nonstring_raises_builtin_valueError :
    (ExecutionSession.set_env_vars trOk "sb" "s1" [(JValue.num 1, JValue.str "x")]).1
      = .error (.valueError "env_vars must contain only string key-value pairs") ∧
    (match (ExecutionSession.set_env_vars trOk "sb" "s1"
        [(JValue.num 1, JValue.str "x")]).1 with
     | .error (.sandboxError _ _ _) => False
     | _ => True) := ⟨rfl, trivial⟩

/-- C5 (amended): for every mapping containing a non-string key or value,
`set_env_vars` fails with the Python built-in `ValueError` (not the SDK's
`SandboxError`), raised locally with zero transport calls; for all-string
mappings, validation passes and the remote POST `/session/env` call is
issued. The sandbox-level `set_env_vars` delegates to the default session. -/
theorem setEnvVars_validation (tr : Transport) (sandboxId sessionId : String)
    (envVars : List (JValue × JValue)) :
    ((∃ kv ∈ envVars, ¬(kv.1.isStr = true ∧ kv.2.isStr = true)) →
      ExecutionSession.set_env_vars tr sandboxId sessionId envVars =
        (.error (.valueError "env_vars must contain only string key-value pairs"), [])) ∧
    ((∀ kv ∈ envVars, kv.1.isStr = true ∧ kv.2.isStr = true) →
      (ExecutionSession.set_env_vars tr sandboxId sessionId envVars).2 =
        [sessionEnvReq sandboxId sessionId
          (envVars.map (fun kv => (kv.1.strVal, JValue.str kv.2.strVal)))]) ∧
    Sandbox.set_env_vars tr sandboxId envVars
      = ExecutionSession.set_env_vars tr sandboxId "default" envVars := by
  refine ⟨?_, ?_, rfl⟩
  · rintro ⟨kv, hmem, hbad⟩
    have hfind : (envVars.find? (fun kv => !(kv.1.isStr && kv.2.isStr))).isSome := by
      rw [List.find?_isSome]
      refine ⟨kv, hmem, ?_⟩
      cases h1 : kv.1.isStr <;> cases h2 : kv.2.isStr <;> simp_all
    obtain ⟨bad, hb⟩ := Option.isSome_iff_exists.mp hfind
    unfold ExecutionSession.set_env_vars
    rw [hb]
  · intro hall
    have hfind : envVars.find? (fun kv => !(kv.1.isStr && kv.2.isStr)) = none := by
      rw [List.find?_eq_none]
      intro kv hmem
      simp [Bool.and_eq_true]
      exact hall kv hmem
    unfold ExecutionSession.set_env_vars
    rw [hfind]
    by_cases hok : (tr (sessionEnvReq sandboxId sessionId
        (envVars.map (fun kv => (kv.1.strVal, JValue.str kv.2.strVal))))).ok <;>
      simp [hok]

/-- Witness for C5 (amended): the mapping `{1: "x"}` fails locally with
`ValueError` and no transport call; the mapping `{"A": "B"}` passes
validation and the POST `/session/env` request is issued. -/
theorem setEnvVars_validation_witness :
    ExecutionSession.set_env_vars trOk "sb" "s1" [(JValue.num 1, JValue.str "x")] =
      (.error (.valueError "env_vars must contain only string key-value pairs"), []) ∧
    (ExecutionSession.set_env_vars trOk "sb" "s1" [(JValue.str "A", JValue.str "B")]).2 =
      [sessionEnvReq "sb" "s1" [("A", JValue.str "B")]] := by
  constructor
  · exact (setEnvVars_validation trOk "sb" "s1" [(JValue.num 1, JValue.str "x")]).1
      ⟨(JValue.num 1, JValue.str "x"), by simp, by simp [JValue.isStr]⟩
  · exact (setEnvVars_validation trOk "sb" "s1" [(JValue.str "A", JValue.str "B")]).2.1
      (by intro kv hkv; simp at hkv; simp [hkv, JValue.isStr])

/-- C8: given a success-class response, `exists` returns the boolean value of
the `exists` field of the unwrapped envelope — from `data.exists` when the
`data` key is present, from the top-level `exists` key otherwise — and
defaults to `false` when the field is absent in either shape. -/
theorem existsFile_envelope (tr : Transport) (sandboxId sessionId path : String)
    (fields : Dict)
    (hok : (tr ((SessionOp.existsFile path).issue sessionId sandboxId)).ok = true)
    (hjson : (tr ((SessionOp.existsFile path).issue sessionId sandboxId)).json
      = .obj fields) :
    (∀ ds b, assocFind fields "data" = some (.obj ds) →
        assocFind ds "exists" = some (.bool b) →
        (ExecutionSession.existsFile tr sandboxId sessionId path).1 = .ok b) ∧
    (∀ b, assocFind fields "data" = none →
        assocFind fields "exists" = some (.bool b) →
        (ExecutionSession.existsFile tr sandboxId sessionId path).1 = .ok b) ∧
    (∀ ds, assocFind fields "data" = some (.obj ds) →
        assocFind ds "exists" = none →
        (ExecutionSession.existsFile tr sandboxId sessionId path).1 = .ok false) ∧
    (assocFind fields "data" = none → assocFind fields "exists" = none →
        (ExecutionSession.existsFile tr sandboxId sessionId path).1 = .ok false) := by
  have hreq : ((SessionOp.existsFile path).issue sessionId sandboxId)
      = ExecutionSession.request sessionId "GET" "/files/exists"
          (some [("path", JValue.str path)]) none sandboxId := rfl
  rw [hreq] at hok hjson
  refine ⟨?_, ?_, ?_, ?_⟩
  · intro ds b hdata hex
    unfold ExecutionSession.existsFile
    simp [hok, hjson, hdata, hex, pyDictGet, pyTruthy, Except.map]
  · intro b hdata hex
    unfold ExecutionSession.existsFile
    simp [hok, hjson, hdata, hex, pyTruthy]
  · intro ds hdata hex
    unfold ExecutionSession.existsFile
    simp [hok, hjson, hdata, hex, pyDictGet, pyTruthy, Except.map]
  · intro hdata hex
    unfold ExecutionSession.existsFile
    simp [hok, hjson, hdata, hex, pyTruthy]

/-- Witness for C8: stub transports answering `{"data": {"exists": true}}`,
`{"exists": false}`, `{"data": {}}` and `{}` yield `true`, `false`, `false`
and `false` respectively. -/
theorem existsFile_envelope_witness :
    (ExecutionSession.existsFile
        (trJson (.obj [("data", .obj [("exists", .bool true)])])) "sb" "s1" "/f").1
      = .ok true ∧
    (ExecutionSession.existsFile (trJson (.obj [("exists", .bool false)])) "sb" "s1" "/f").1
      = .ok false ∧
    (ExecutionSession.existsFile (trJson (.obj [("data", .obj [])])) "sb" "s1" "/f").1
      = .ok false ∧
    (ExecutionSession.existsFile (trJson (.obj [])) "sb" "s1" "/f").1 = .ok false := by
  refine ⟨?_, ?_, ?_, ?_⟩
  · exact (existsFile_envelope (trJson (.obj [("data", .obj [("exists", .bool true)])]))
      "sb" "s1" "/f" [("data", .obj [("exists", .bool true)])] rfl rfl).1
      [("exists", .bool true)] true rfl rfl
  · exact (existsFile_envelope (trJson (.obj [("exists", .bool false)]))
      "sb" "s1" "/f" [("exists", .bool false)] rfl rfl).2.1 false rfl rfl
  · exact (existsFile_envelope (trJson (.obj [("data", .obj [])]))
      "sb" "s1" "/f" [("data", .obj [])] rfl rfl).2.2.1 [] rfl rfl
  · exact (existsFile_envelope (trJson (.obj []))
      "sb" "s1" "/f" [] rfl rfl).2.2.2 rfl rfl

/-- C10: given a success-class response whose JSON body is a dict lacking a
`content` field — whether under the `data` envelope key or at top level —
`read` returns the empty string rather than raising. -/
theorem read_missing_content_defaults_empty (tr : Transport)
    (sandboxId sessionId path : String) (fields : Dict)
    (hok : (tr ((SessionOp.read path).issue sessionId sandboxId)).ok = true)
    (hjson : (tr ((SessionOp.read path).issue sessionId sandboxId)).json = .obj fields) :
    (∀ ds, assocFind fields "data" = some (.obj ds) →
        assocFind ds "content" = none →
        (ExecutionSession.read tr sandboxId sessionId path).1 = .ok (.str "")) ∧
    (assocFind fields "data" = none → assocFind fields "content" = none →
        (ExecutionSession.read tr sandboxId sessionId path).1 = .ok (.str "")) := by
  have hreq : ((SessionOp.read path).issue sessionId sandboxId)
      = ExecutionSession.request sessionId "GET" "/files/read"
          (some [("path", JValue.str path)]) none sandboxId := rfl
  rw [hreq] at hok hjson
  constructor
  · intro ds hdata hc
    unfold ExecutionSession.read
    simp [hok, hjson, hdata, hc, pyDictGet]
  · intro hdata hc
    unfold ExecutionSession.read
    simp [hok, hjson, hdata, hc]

/-- Witness for C10: stub transports answering `{"data": {"other": 1}}` and
`{"other": 1}` both make `read` return the empty string. -/
theorem read_missing_content_defaults_empty_witness :
    (ExecutionSession.read (trJson (.obj [("data", .obj [("other", .num 1)])]))
        "sb" "s1" "/f").1 = .ok (.str "") ∧
    (ExecutionSession.read (trJson (.obj [("other", .num 1)])) "sb" "s1" "/f").1
      = .ok (.str "") := by
  constructor
  · exact (read_missing_content_defaults_empty
      (trJson (.obj [("data", .obj [("other", .num 1)])])) "sb" "s1" "/f"
      [("data", .obj [("other", .num 1)])] rfl rfl).1 [("other", .num 1)] rfl rfl
  · exact (read_missing_content_defaults_empty
      (trJson (.obj [("other", .num 1)])) "sb" "s1" "/f"
      [("other", .num 1)] rfl rfl).2 rfl rfl

/-- Allocating a fresh dict leaves every existing dict object readable
unchanged. -/
theorem Store.get_alloc (s : Store) (d : Dict) (r : Nat) (h : r < s.dicts.length) :
    (s.alloc d).1.get r = s.get r := by
  unfold Store.alloc Store.get
  simp [List.getElem?_append_left h]

/-- Mutating one dict object leaves every other dict object unchanged. -/
theorem Store.get_setItem_ne (s : Store) (i : Nat) (k : String) (v : JValue) (r : Nat)
    (h : r ≠ i) : (s.setItem i k v).get r = s.get r := by
  unfold Store.setItem Store.get
  simp [List.getD_eq_getElem?_getD, List.getElem?_set_ne (Ne.symm h)]

/-- Allocation grows the heap by one. -/
theorem length_alloc (s : Store) (d : Dict) :
    (s.alloc d).1.dicts.length = s.dicts.length + 1 := by
  simp [Store.alloc]

/-- The reference returned by allocation is the pre-allocation heap size. -/
theorem snd_alloc (s : Store) (d : Dict) : (s.alloc d).2 = s.dicts.length := rfl

/-- Two allocations preserve every pre-existing dict object. -/
theorem get_after_two_allocs (s0 : Store) (d1 d2 : Dict) (r : Nat)
    (h : r < s0.dicts.length) :
    ((s0.alloc d1).1.alloc d2).1.get r = s0.get r := by
  rw [Store.get_alloc _ _ _ (by rw [length_alloc]; omega), Store.get_alloc _ _ _ h]

/-- Two allocations followed by a write to one of the fresh objects preserve
every pre-existing dict object. -/
theorem get_after_two_allocs_setItem (s0 : Store) (d1 d2 : Dict) (i : Nat) (k : String)
    (v : JValue) (r : Nat) (h : r < s0.dicts.length) (hi : s0.dicts.length ≤ i) :
    (Store.setItem ((s0.alloc d1).1.alloc d2).1 i k v).get r = s0.get r := by
  rw [Store.get_setItem_ne _ _ _ _ _ (by omega),
      Store.get_alloc _ _ _ (by rw [length_alloc]; omega),
      Store.get_alloc _ _ _ h]

/-- C9: `ExecutionSession._request` never mutates the caller-supplied dicts:
it copies `params` and `json_body` into fresh dict objects before injecting
the session id, so every dict object that existed before the call — in
particular the two the caller passed in — holds exactly its old value
afterwards, for every method and session id. -/
theorem requestStore_never_mutates_caller_dicts (sessionId method : String)
    (params jsonBody : Option Nat) (s0 : Store) (r : Nat) (h : r < s0.dicts.length) :
    (ExecutionSession.requestStore sessionId method params jsonBody s0).1.get r
      = s0.get r := by
  unfold ExecutionSession.requestStore
  rcases jsonBody with _ | br <;> rcases params with _ | pr <;>
    dsimp only <;>
    repeat' split
  all_goals first
    | exact get_after_two_allocs _ _ _ _ h
    | exact get_after_two_allocs_setItem _ _ _ _ _ _ _ h
        (by simp only [snd_alloc, length_alloc]; omega)

/-- Witness for C9: a POST `_request` against a heap holding the caller's
params dict (object 0) and body dict (object 1) leaves object 1 — the dict
the session id would have been injected into without the copy — unchanged. -/
theorem requestStore_never_mutates_caller_dicts_witness :
    (ExecutionSession.requestStore "s1" "POST" (some 0) (some 1)
        { dicts := [[("a", JValue.str "b")], [("path", JValue.str "/f")]] }).1.get 1
      = [("path", JValue.str "/f")] := by
  rw [requestStore_never_mutates_caller_dicts "s1" "POST" (some 0) (some 1)
      { dicts := [[("a", JValue.str "b")], [("path", JValue.str "/f")]] } 1 (by decide)]
  rfl

/-- Splitting the scanned characters splits the basename scan. -/
theorem basenameAux_append (xs ys acc : List Char) :
    basenameAux (xs ++ ys) acc = basenameAux ys (basenameAux xs acc) := by
  induction xs generalizing acc with
  | nil => rfl
  | cons c rest ih => simp [basenameAux, ih]

/-- The basename scan never outputs a slash when its accumulator has none. -/
theorem basenameAux_no_slash (xs : List Char) (acc : List Char) (hacc : '/' ∉ acc) :
    '/' ∉ basenameAux xs acc := by
  induction xs generalizing acc with
  | nil => exact hacc
  | cons c rest ih =>
      by_cases hc : c = '/'
      · simp only [basenameAux, hc, if_pos rfl]
        exact ih [] (by simp)
      · simp only [basenameAux, if_neg hc]
        exact ih (acc ++ [c]) (by simp [List.mem_append, hacc]; exact fun e => hc e.symm)

/-- On slash-free input the basename scan just appends the input. -/
theorem basenameAux_of_no_slash (xs : List Char) (acc : List Char) (hxs : '/' ∉ xs) :
    basenameAux xs acc = acc ++ xs := by
  induction xs generalizing acc with
  | nil => simp [basenameAux]
  | cons c rest ih =>
      have hc : ¬(c = '/') := by
        intro e; exact hxs (by simp [e])
      simp only [basenameAux, if_neg hc]
      rw [ih (acc ++ [c]) (by intro hm; exact hxs (by simp [hm]))]
      simp

/-- String concatenation concatenates the character data. -/
theorem data_append (a b : String) : (a ++ b).data = a.data ++ b.data := rfl

/-- The basename of a path ending in `.sh` ends in `.sh`. -/
theorem basename_append_suffix (stem : String) :
    (basename (stem ++ ".sh")).data
      = (basename stem).data ++ ('.' :: 's' :: 'h' :: []) := by
  show basenameAux (stem ++ ".sh").data [] = basenameAux stem.data [] ++ _
  rw [data_append, basenameAux_append]
  rw [basenameAux_of_no_slash _ _ (by decide)]

/-- Prefixing `/workspace/` leaves the basename of a slash-free name intact. -/
theorem basename_workspace (f : String) (hf : '/' ∉ f.data) :
    basename ("/workspace/" ++ f) = f := by
  have hdata : (basename ("/workspace/" ++ f)).data = f.data := by
    show basenameAux ("/workspace/" ++ f).data [] = f.data
    rw [data_append, basenameAux_append]
    have h1 : basenameAux "/workspace/".data [] = [] := rfl
    rw [h1, basenameAux_of_no_slash _ _ hf]
    rfl
  cases f
  exact congrArg String.mk hdata

/-- The basename of a path of the shape `stem ++ ".sh"` is non-empty,
contains a dot, and contains no slash. -/
theorem basename_sh_parts (p stem : String) (hp : p = stem ++ ".sh") :
    (basename p).data.isEmpty = false ∧ (basename p).data.contains '.' = true ∧
    '/' ∉ (basename p).data := by
  subst hp
  have hd := basename_append_suffix stem
  refine ⟨?_, ?_, ?_⟩
  · rw [hd]; simp
  · rw [hd]; simp
  · exact basenameAux_no_slash _ [] (by simp)

/-- A successful write returns ok together with its single issued request. -/
theorem write_ok_eq (tr : Transport) (sandboxId sessionId path content : String)
    (hok : (tr (ExecutionSession.request sessionId "POST" "/files/write"
      none (some [("path", JValue.str path), ("content", JValue.str content)])
      sandboxId)).ok = true) :
    ExecutionSession.write tr sandboxId sessionId path content =
      (.ok (), [ExecutionSession.request sessionId "POST" "/files/write"
        none (some [("path", JValue.str path), ("content", JValue.str content)])
        sandboxId]) := by
  unfold ExecutionSession.write
  simp [hok]

/-- Operation `run` issues exactly one request, whatever the response. -/
theorem run_trace (tr : Transport) (sandboxId sessionId command : String) :
    (ExecutionSession.run tr sandboxId sessionId command).2 =
      [ExecutionSession.request sessionId "POST" "/session/exec"
        none (some [("command", JValue.str command)]) sandboxId] := by
  unfold ExecutionSession.run
  by_cases hok : (tr (ExecutionSession.request sessionId "POST" "/session/exec"
      none (some [("command", JValue.str command)]) sandboxId)).ok <;> simp [hok]

/-- Running `run_script` on inline content (no readable file, no explicit sandbox
path): writes the content to the generated `/workspace/script-<uuid><ext>`
path and then issues the interpreter invocation command for that path. -/
theorem run_script_trace_inline (tr : Transport) (localFs : String → Option String)
    (uuid sandboxId sessionId content interpreter : String)
    (hfile : localFs content = none)
    (hok : (tr (ExecutionSession.request sessionId "POST" "/files/write"
      none (some [("path", JValue.str ("/workspace/script-" ++ uuid ++ extMap interpreter)),
                  ("content", JValue.str content)]) sandboxId)).ok = true) :
    (ExecutionSession.run_script tr localFs uuid sandboxId sessionId content
        interpreter none).2 =
      [ExecutionSession.request sessionId "POST" "/files/write"
        none (some [("path", JValue.str ("/workspace/script-" ++ uuid ++ extMap interpreter)),
                    ("content", JValue.str content)]) sandboxId,
       ExecutionSession.request sessionId "POST" "/session/exec"
        none (some [("command", JValue.str
          (scriptCommand interpreter ("/workspace/script-" ++ uuid ++ extMap interpreter)))])
        sandboxId] := by
  unfold ExecutionSession.run_script
  simp only [hfile, if_true, Option.getD]
  rw [write_ok_eq _ _ _ _ _ hok]
  dsimp only
  have ht := run_trace tr sandboxId sessionId
    (scriptCommand interpreter ("/workspace/script-" ++ uuid ++ extMap interpreter))
  rcases hrun : ExecutionSession.run tr sandboxId sessionId
      (scriptCommand interpreter ("/workspace/script-" ++ uuid ++ extMap interpreter))
    with ⟨res, tra2⟩
  rw [hrun] at ht
  simp only at ht
  cases res with
  | error e => simp [ht]
  | ok result => cases result <;> simp [ht]

/-- Running `run_script` on a readable local file whose basename is non-empty and
dotted (no explicit sandbox path): writes the file content to
`/workspace/<basename>` and then issues the interpreter invocation command
for that path. -/
theorem run_script_trace_file (tr : Transport) (localFs : String → Option String)
    (uuid sandboxId sessionId p c interpreter : String)
    (hfile : localFs p = some c)
    (hbase_ne : (basename p).data.isEmpty = false)
    (hbase_dot : (basename p).data.contains '.' = true)
    (hok : (tr (ExecutionSession.request sessionId "POST" "/files/write"
      none (some [("path", JValue.str ("/workspace/" ++ basename p)),
                  ("content", JValue.str c)]) sandboxId)).ok = true) :
    (ExecutionSession.run_script tr localFs uuid sandboxId sessionId p
        interpreter none).2 =
      [ExecutionSession.request sessionId "POST" "/files/write"
        none (some [("path", JValue.str ("/workspace/" ++ basename p)),
                    ("content", JValue.str c)]) sandboxId,
       ExecutionSession.request sessionId "POST" "/session/exec"
        none (some [("command", JValue.str
          (scriptCommand interpreter ("/workspace/" ++ basename p)))]) sandboxId] := by
  unfold ExecutionSession.run_script
  simp only [hfile, hbase_ne, hbase_dot, if_true, Bool.false_or, Bool.not_true,
    Bool.or_false, if_false, Bool.false_eq_true, ite_false, ite_true]
  rw [write_ok_eq _ _ _ _ _ hok]
  dsimp only
  have ht := run_trace tr sandboxId sessionId
    (scriptCommand interpreter ("/workspace/" ++ basename p))
  rcases hrun : ExecutionSession.run tr sandboxId sessionId
      (scriptCommand interpreter ("/workspace/" ++ basename p))
    with ⟨res, tra2⟩
  rw [hrun] at ht
  simp only at ht
  cases res with
  | error e => simp [ht]
  | ok result => cases result <;> simp [ht]

/-- C7: `run_script` with inline script text (not a readable local file) and
interpreter `python3`, with no explicit sandbox path, generates a remote path
ending in `.py` and issues the invocation command `python3 <path>` for that
path; with a readable local file path ending in `.sh`, the generated remote
path is `/workspace/<basename>` and its basename equals the local file's
basename. The extension map sends `python3`/`python` to `.py`, `bash`/`sh`
to `.sh`, `node`/`nodejs` to `.js`, and everything else to `.txt`. -/
theorem runScript_paths_commands_extensions (tr : Transport)
    (localFs : String → Option String) (uuid sandboxId sessionId : String) :
    (∀ content, localFs content = none →
      (∃ pre, ("/workspace/script-" ++ uuid ++ ".py") = pre ++ ".py") ∧
      ((tr (ExecutionSession.request sessionId "POST" "/files/write"
          none (some [("path", JValue.str ("/workspace/script-" ++ uuid ++ ".py")),
                      ("content", JValue.str content)]) sandboxId)).ok = true →
        (ExecutionSession.run_script tr localFs uuid sandboxId sessionId content
            "python3" none).2 =
          [ExecutionSession.request sessionId "POST" "/files/write"
            none (some [("path", JValue.str ("/workspace/script-" ++ uuid ++ ".py")),
                        ("content", JValue.str content)]) sandboxId,
           ExecutionSession.request sessionId "POST" "/session/exec"
            none (some [("command", JValue.str
              ("python3 " ++ ("/workspace/script-" ++ uuid ++ ".py")))]) sandboxId])) ∧
    (∀ p c stem interpreter, localFs p = some c → p = stem ++ ".sh" →
      basename ("/workspace/" ++ basename p) = basename p ∧
      ((tr (ExecutionSession.request sessionId "POST" "/files/write"
          none (some [("path", JValue.str ("/workspace/" ++ basename p)),
                      ("content", JValue.str c)]) sandboxId)).ok = true →
        (ExecutionSession.run_script tr localFs uuid sandboxId sessionId p
            interpreter none).2 =
          [ExecutionSession.request sessionId "POST" "/files/write"
            none (some [("path", JValue.str ("/workspace/" ++ basename p)),
                        ("content", JValue.str c)]) sandboxId,
           ExecutionSession.request sessionId "POST" "/session/exec"
            none (some [("command", JValue.str
              (scriptCommand interpreter ("/workspace/" ++ basename p)))]) sandboxId])) ∧
    (extMap "python3" = ".py" ∧ extMap "python" = ".py" ∧ extMap "bash" = ".sh" ∧
     extMap "sh" = ".sh" ∧ extMap "node" = ".js" ∧ extMap "nodejs" = ".js" ∧
     (∀ i, i ≠ "python3" → i ≠ "python" → i ≠ "bash" → i ≠ "sh" → i ≠ "node" →
        i ≠ "nodejs" → extMap i = ".txt")) := by
  refine ⟨?_, ?_, rfl, rfl, rfl, rfl, rfl, rfl, ?_⟩
  · intro content hfile
    refine ⟨⟨"/workspace/script-" ++ uuid, rfl⟩, ?_⟩
    intro hok
    exact run_script_trace_inline tr localFs uuid sandboxId sessionId content "python3"
      hfile hok
  · intro p c stem interpreter hfile hp
    obtain ⟨hne, hdot, hnoslash⟩ := basename_sh_parts p stem hp
    refine ⟨basename_workspace (basename p) hnoslash, ?_⟩
    intro hok
    exact run_script_trace_file tr localFs uuid sandboxId sessionId p c interpreter
      hfile hne hdot hok
  · intro i h1 h2 h3 h4 h5 h6
    have g1 : ¬("python3" = i) := fun e => h1 e.symm
    have g2 : ¬("python" = i) := fun e => h2 e.symm
    have g3 : ¬("bash" = i) := fun e => h3 e.symm
    have g4 : ¬("sh" = i) := fun e => h4 e.symm
    have g5 : ¬("node" = i) := fun e => h5 e.symm
    have g6 : ¬("nodejs" = i) := fun e => h6 e.symm
    simp [extMap, assocFind, g1, g2, g3, g4, g5, g6]

/-- Witness for C7: inline `print(1+1)` with interpreter `python3` produces
the `.py` path and `python3 <path>` command; the readable file
`/tmp/demo.sh` keeps its basename `demo.sh` under `/workspace/`; an unknown
interpreter maps to `.txt`. -/
theorem runScript_paths_commands_extensions_witness :
    (ExecutionSession.run_script trOk (fun _ => none) "u0" "sb" "s1" "print(1+1)"
        "python3" none).2 =
      [ExecutionSession.request "s1" "POST" "/files/write"
        none (some [("path", JValue.str ("/workspace/script-" ++ "u0" ++ ".py")),
                    ("content", JValue.str "print(1+1)")]) "sb",
       ExecutionSession.request "s1" "POST" "/session/exec"
        none (some [("command", JValue.str
          ("python3 " ++ ("/workspace/script-" ++ "u0" ++ ".py")))]) "sb"] ∧
    basename ("/workspace/" ++ basename "/tmp/demo.sh") = basename "/tmp/demo.sh" ∧
    (ExecutionSession.run_script trOk localFsStub "u0" "sb" "s1" "/tmp/demo.sh"
        "bash" none).2 =
      [ExecutionSession.request "s1" "POST" "/files/write"
        none (some [("path", JValue.str ("/workspace/" ++ basename "/tmp/demo.sh")),
                    ("content", JValue.str "echo hi")]) "sb",
       ExecutionSession.request "s1" "POST" "/session/exec"
        none (some [("command", JValue.str
          (scriptCommand "bash" ("/workspace/" ++ basename "/tmp/demo.sh")))]) "sb"] ∧
    extMap "ruby" = ".txt" := by
  refine ⟨?_, ?_, ?_, ?_⟩
  · exact ((runScript_paths_commands_extensions trOk (fun _ => none) "u0" "sb" "s1").1
      "print(1+1)" rfl).2 rfl
  · exact ((runScript_paths_commands_extensions trOk localFsStub "u0" "sb" "s1").2.1
      "/tmp/demo.sh" "echo hi" "/tmp/demo" "bash" rfl rfl).1
  · exact ((runScript_paths_commands_extensions trOk localFsStub "u0" "sb" "s1").2.1
      "/tmp/demo.sh" "echo hi" "/tmp/demo" "bash" rfl rfl).2 rfl
  · exact (runScript_paths_commands_extensions trOk localFsStub "u0" "sb" "s1").2.2.2.2.2.2.2.2
      "ruby" (by decide) (by decide) (by decide) (by decide) (by decide) (by decide)






